import Mathlib

/-!
Shallow embedding of the "Auto Reload From Disk" extension core
(`src/extension.ts`): path-keyed tracked-file state, the change arbiter
(`maybeReloadForUri`), the reload executor (`revertDocument`), the watcher-set
synchronizer (`syncExternalWatchers`), the poll sweep
(`pollForExternalChanges`), and the runtime controller
(`stopRuntime` / `startRuntime` / `applyEnabledState` / the `onConfig`
handler).  Asynchronous suspension points (the dirty-conflict prompt, the
fallback focus/revert sequence) are modelled explicitly: the arbiter is split
into a phase that runs up to the prompt and a resume phase, and the
environment may flip a document's dirty bit at each await re-check point.
Timestamps and mtimes are integers (JS `Date.now()` / `mtimeMs`).
-/

namespace AutoReload

/-- Normalized path key (the result of `normalizeFsPath`). -/
abbrev Key := String

/-- `DIRTY_NOTIFY_COOLDOWN_MS` constant (extension.ts line 6). -/
def DIRTY_NOTIFY_COOLDOWN_MS : Int := 4000

/-! ### JS `Map` / `Set` operations on association lists -/

/-- `Map.get`: the binding for the key (first one in the list). -/
def mget {α : Type} : List (Key × α) → Key → Option α
  | [], _ => none
  | (a, b) :: m, k => if a = k then some b else mget m k

/-- `Map.delete`. -/
def mdel {α : Type} (m : List (Key × α)) (k : Key) : List (Key × α) :=
  m.filter (fun p => p.1 ≠ k)

/-- `Map.set`: replace any previous binding. -/
def mset {α : Type} (m : List (Key × α)) (k : Key) (v : α) : List (Key × α) :=
  (k, v) :: mdel m k

/-- `Map.has` / `Set.has`. -/
def mhas {α : Type} (m : List (Key × α)) (k : Key) : Bool :=
  (mget m k).isSome

/-! ### Configuration -/

/-- Configuration snapshot.  The numeric settings are kept as configured
(`none` = not set, so the host returns the declared default); the extension
clamps them on read. -/
structure Config where
  enabled : Bool := true
  glob : String := "**/*"
  notifyOnDirty : Option Bool := none
  stealFocusOnReload : Option Bool := none
  pollIntervalMs : Option Int := none
  debounceMs : Option Int := none
deriving DecidableEq, Repr

/-- `getPollIntervalMs`: default 1000, then `Math.max(250, Math.min(60000, v))`. -/
def getPollIntervalMs (c : Config) : Int :=
  max 250 (min 60000 (c.pollIntervalMs.getD 1000))

/-- `getDebounceMs`: default 300, then `Math.max(50, Math.min(5000, v))`. -/
def getDebounceMs (c : Config) : Int :=
  max 50 (min 5000 (c.debounceMs.getD 300))

/-- `notifyOnDirty()`: default true. -/
def notifyOnDirtyVal (c : Config) : Bool := c.notifyOnDirty.getD true

/-- `stealFocusOnReload()`: default false. -/
def stealFocusVal (c : Config) : Bool := c.stealFocusOnReload.getD false

/-! ### Documents, disk, extension state -/

/-- An open text document: normalized path, uri scheme, untitled flag,
displayed buffer content, and dirty flag. -/
structure Document where
  path : Key
  scheme : String := "file"
  isUntitled : Bool := false
  content : String := ""
  isDirty : Bool := false
deriving DecidableEq, Repr

/-- `shouldWatchDocument` (extension.ts lines 47-49). -/
def shouldWatchDocument (d : Document) : Bool :=
  d.scheme = "file" && !d.isUntitled

/-- The extension's module-level mutable state (extension.ts lines 73-83).
Watcher and timer handles are modelled by identity numbers drawn from a
fresh-id counter so that "restarted" versus "untouched" is observable;
`syncQueue` counts reconciliations enqueued on `syncWatchersQueue`. -/
structure ExtState where
  externalWatchers : List (Key × Nat) := []
  knownMtimes : List (Key × Int) := []
  inFlight : List Key := []
  lastEventAt : List (Key × Int) := []
  lastDirtyNotifyAt : List (Key × Int) := []
  workspaceWatcher : Option Nat := none
  pollTimer : Option (Nat × Int) := none
  pollInProgress : Bool := false
  isRuntimeEnabled : Bool := false
  syncQueue : Nat := 0
  nextId : Nat := 0
deriving DecidableEq, Repr

/-- The world: extension state, the open documents, and the disk contents
(`disk k = some (content, mtimeMs)`, `none` when stat fails). -/
structure World where
  ext : ExtState
  docs : List Document
  disk : Key → Option (String × Int)

/-- `statMtimeMs` (lines 51-58): `none` on failure, never throws. -/
def statMtimeMs (w : World) (k : Key) : Option Int := (w.disk k).map (·.2)

/-- `findOpenDocByPath` (lines 85-88). -/
def findOpenDocByPath (w : World) (k : Key) : Option Document :=
  w.docs.find? (fun d => d.scheme = "file" && d.path = k)

/-- Dirty bit of the live document object at `k` (reads through the held
reference, as the TS code does; `false` when no such document). -/
def docIsDirty (w : World) (k : Key) : Bool :=
  ((findOpenDocByPath w k).map (·.isDirty)).getD false

/-- Buffer content of the live document object at `k`. -/
def docContent (w : World) (k : Key) : Option String :=
  (findOpenDocByPath w k).map (·.content)

/-- Environment intervention at an await point: the document's dirty bit may
have been changed by a concurrent edit/save while the evaluation was
suspended. -/
def setDirty (w : World) (k : Key) (b : Bool) : World :=
  { w with docs := w.docs.map (fun d => if d.path = k then { d with isDirty := b } else d) }

/-- `refreshKnownMtime` (lines 90-94): stat; record only on success. -/
def refreshKnownMtime (w : World) (k : Key) : World :=
  match statMtimeMs w k with
  | some m => { w with ext := { w.ext with knownMtimes := mset w.ext.knownMtimes k m } }
  | none => w

/-- Effect of a successful host revert operation on the buffer: content is
replaced by the on-disk content and the document becomes clean.  When the
file is gone from disk the host operation is a no-op here (no claim depends
on that case). -/
def applyRevert (w : World) (k : Key) : World :=
  match w.disk k with
  | some (c, _) =>
      { w with docs := w.docs.map (fun d =>
          if d.path = k then { d with content := c, isDirty := false } else d) }
  | none => w

/-! ### Reload Executor (`revertDocument`, lines 96-123) -/

/-- Host behaviour parameters for one evaluation: whether the
`revertResource` command succeeds, which document is the active editor,
the document's dirty bit as re-read at the fallback re-check (line 118,
after the awaited focus change), and whether the fallback revert command
throws. -/
structure HostEnv where
  revertResourceOk : Bool := true
  activeDoc : Option Key := none
  dirtyAtRecheck : Bool := false
  fallbackRevertFails : Bool := false
  promptChoiceReload : Bool := false
  dirtyAfterPrompt : Bool := false
deriving DecidableEq, Repr

/-- `revertDocument`: returns `Except` because the fallback revert command
(line 119) is not caught inside the function; the error carries the world at
the throw point.  `ok (reloaded, w)` otherwise. -/
def revertDocument (cfg : Config) (env : HostEnv) (w : World) (k : Key) :
    Except World (Bool × World) :=
  if docIsDirty w k then .ok (false, w)
  else if env.revertResourceOk then
    -- revertResource succeeded: buffer replaced, then mtime refreshed
    .ok (true, refreshKnownMtime (applyRevert w k) k)
  else
    -- revertResource threw (caught, line 104): fall through to the fallback
    let isActive := env.activeDoc = some k
    if ¬isActive ∧ ¬stealFocusVal cfg then .ok (false, w)
    else
      -- (showTextDocument when not active), then re-check dirtiness (line 118)
      let w := setDirty w k env.dirtyAtRecheck
      if docIsDirty w k then .ok (false, w)
      else if env.fallbackRevertFails then .error w
      else .ok (true, refreshKnownMtime (applyRevert w k) k)

/-! ### Change Arbiter (`maybeReloadForUri`, lines 125-166) -/

/-- A uri: scheme plus normalized fs path. -/
structure Uri where
  scheme : String := "file"
  path : Key
deriving DecidableEq, Repr

/-- Visible outcome of one arbiter evaluation. -/
inductive Outcome where
  | disabledDrop
  | schemeDrop
  | debounceDrop
  | inFlightDrop
  | noDocDrop
  | dirtyNoNotifyDrop
  | dirtyCooldownDrop
  /-- the dirty-conflict prompt was shown and answered; `reloaded` says
  whether the subsequent `revertDocument` (if chosen) reported a reload -/
  | prompted (reloaded : Bool)
  /-- the silent (non-dirty) path ran `revertDocument` -/
  | reloadPath (reloaded : Bool)
  /-- the body threw (uncaught fallback revert); `finally` still ran -/
  | errored
deriving DecidableEq, Repr

/-- Set helpers on `inFlight` mirroring `Set.add` / `Set.delete`. -/
def addInFlight (e : ExtState) (k : Key) : ExtState :=
  { e with inFlight := k :: e.inFlight }

def delInFlight (e : ExtState) (k : Key) : ExtState :=
  { e with inFlight := e.inFlight.filter (fun x => x ≠ k) }

/-- `lastEventAt.set(changedPath, now)` (line 133). -/
def recordEvent (w : World) (k : Key) (now : Int) : World :=
  { w with ext := { w.ext with lastEventAt := mset w.ext.lastEventAt k now } }

/-- `lastDirtyNotifyAt.set(changedPath, now)` (line 147). -/
def recordDirtyNotify (w : World) (k : Key) (now : Int) : World :=
  { w with ext := { w.ext with lastDirtyNotifyAt := mset w.ext.lastDirtyNotifyAt k now } }

/-- `inFlight.add(changedPath)` (line 136). -/
def markInFlight (w : World) (k : Key) : World := { w with ext := addInFlight w.ext k }

/-- `inFlight.delete(changedPath)` in the `finally` (line 164). -/
def clearInFlightW (w : World) (k : Key) : World := { w with ext := delInFlight w.ext k }

/-- Result of running the arbiter up to (and including) showing the
dirty-conflict prompt: either the evaluation finished, or it is suspended at
the awaited prompt with the given world (in-flight flag held). -/
inductive Phase1 where
  | done (o : Outcome) (w : World)
  | atPrompt (w : World)

/-- `maybeReloadForUri` up to the `showWarningMessage` await: the guard
drops (lines 126-127), debounce (130-133), in-flight dedup (135-136), open
document lookup (139-140), the dirty branch up to the prompt (142-150), and
the whole non-dirty branch (161-165, including its `finally`). -/
def arbiterPhase1 (cfg : Config) (env : HostEnv) (w : World) (uri : Uri)
    (now : Int) : Phase1 :=
  if ¬w.ext.isRuntimeEnabled then .done .disabledDrop w
  else if uri.scheme ≠ "file" then .done .schemeDrop w
  else
    let k := uri.path
    if now - (mget w.ext.lastEventAt k).getD 0 < getDebounceMs cfg then
      .done .debounceDrop w
    else
      let w := recordEvent w k now
      if w.ext.inFlight.contains k then .done .inFlightDrop w
      else
        let w := markInFlight w k
        match findOpenDocByPath w k with
        | none => .done .noDocDrop (clearInFlightW w k)
        | some d =>
          if d.isDirty then
            if ¬notifyOnDirtyVal cfg then
              .done .dirtyNoNotifyDrop (clearInFlightW w k)
            else if now - (mget w.ext.lastDirtyNotifyAt k).getD 0 <
                DIRTY_NOTIFY_COOLDOWN_MS then
              .done .dirtyCooldownDrop (clearInFlightW w k)
            else
              .atPrompt (recordDirtyNotify w k now)
          else
            match revertDocument cfg env w k with
            | .ok (r, w') => .done (.reloadPath r) (clearInFlightW w' k)
            | .error w' => .done .errored (clearInFlightW w' k)

/-- Resumption after the prompt await (lines 155-158 plus the `finally`):
the document's dirty bit may have changed during the await; if the user chose
"Reload from disk (discard local changes)" the executor runs; the in-flight
flag is cleared on every path, error included. -/
def arbiterResume (cfg : Config) (env : HostEnv) (w : World) (k : Key) : Outcome × World :=
  let w := setDirty w k env.dirtyAfterPrompt
  if env.promptChoiceReload then
    match revertDocument cfg env w k with
    | .ok (r, w') => (.prompted r, clearInFlightW w' k)
    | .error w' => (.errored, clearInFlightW w' k)
  else (.prompted false, clearInFlightW w k)

/-- The whole arbiter evaluation, prompt answered by the environment. -/
def maybeReloadForUri (cfg : Config) (env : HostEnv) (w : World) (uri : Uri)
    (now : Int) : Outcome × World :=
  match arbiterPhase1 cfg env w uri now with
  | .done o w' => (o, w')
  | .atPrompt w' => arbiterResume cfg env w' uri.path

/-! ### Watcher Set Synchronizer (`syncExternalWatchers`, lines 168-201) -/

/-- Removal pass (lines 172-180): every watched path that is no longer open
has its handle closed and removed, and its `knownMtimes`, `lastEventAt` and
`lastDirtyNotifyAt` entries deleted.  `inFlight` is not touched — the source
deletes from exactly three maps. -/
def syncRemovalPass (e : ExtState) (openPaths : List Key) : ExtState :=
  let gone : List Key :=
    (e.externalWatchers.map (·.1)).filter (fun k => ¬openPaths.contains k)
  { e with
    externalWatchers := e.externalWatchers.filter (fun p => openPaths.contains p.1)
    knownMtimes := e.knownMtimes.filter (fun p => ¬gone.contains p.1)
    lastEventAt := e.lastEventAt.filter (fun p => ¬gone.contains p.1)
    lastDirtyNotifyAt := e.lastDirtyNotifyAt.filter (fun p => ¬gone.contains p.1) }

/-- Seeding step of the attach pass (lines 185-188): record the stat mtime
when the key has no known mtime yet (stat failure seeds nothing). -/
def seedKnownMtime (w : World) (k : Key) : World :=
  if ¬mhas w.ext.knownMtimes k then
    match statMtimeMs w k with
    | some m => { w with ext := { w.ext with knownMtimes := mset w.ext.knownMtimes k m } }
    | none => w
  else w

/-- Watcher step of the attach pass (lines 190-199): attach a native
watcher when none exists; `attachOk` says whether `fs.watch` succeeds for
that path (failure is logged and skipped). -/
def attachWatcher (attachOk : Key → Bool) (w : World) (k : Key) : World :=
  if mhas w.ext.externalWatchers k then w
  else if attachOk k then
    { w with ext := { w.ext with
        externalWatchers := mset w.ext.externalWatchers k w.ext.nextId,
        nextId := w.ext.nextId + 1 } }
  else w

/-- Attach pass for one open document (lines 182-200). -/
def syncAttachOne (attachOk : Key → Bool) (w : World) (d : Document) : World :=
  attachWatcher attachOk (seedKnownMtime w d.path) d.path

/-- `syncExternalWatchers`: removal pass over watched paths, then attach
pass over open watchable documents. -/
def syncExternalWatchers (attachOk : Key → Bool) (w : World) : World :=
  let openDocs := w.docs.filter shouldWatchDocument
  let openPaths := openDocs.map (·.path)
  let w := { w with ext := syncRemovalPass w.ext openPaths }
  openDocs.foldl (syncAttachOne attachOk) w

/-- `queueSyncExternalWatchers` (lines 203-209): chain one reconciliation
onto the serialized queue. -/
def queueSyncExternalWatchers (e : ExtState) : ExtState :=
  { e with syncQueue := e.syncQueue + 1 }

/-- `onDidOpenTextDocument` / `onDidCloseTextDocument` handlers (lines
346-347): enqueue a reconciliation unconditionally — there is no
`isRuntimeEnabled` guard in the source. -/
def onOpenOrClose (e : ExtState) : ExtState := queueSyncExternalWatchers e

/-! ### Poll Loop (`pollForExternalChanges`, lines 220-239) -/

/-- One document of the poll sweep: stat, seed when unknown, and when the
current mtime differs from the known one, record the current mtime first and
then invoke the arbiter.  The `Bool` reports whether a signal was emitted
(i.e. `maybeReloadForUri` was invoked). -/
def pollDoc (cfg : Config) (env : HostEnv) (now : Int) (w : World)
    (d : Document) : World × Bool :=
  if ¬shouldWatchDocument d then (w, false)
  else
    let k := d.path
    match statMtimeMs w k with
    | none => (w, false)
    | some m =>
      match mget w.ext.knownMtimes k with
      | none => ({ w with ext := { w.ext with knownMtimes := mset w.ext.knownMtimes k m } }, false)
      | some previous =>
        if m ≠ previous then
          let w := { w with ext := { w.ext with knownMtimes := mset w.ext.knownMtimes k m } }
          ((maybeReloadForUri cfg env w ⟨"file", k⟩ now).2, true)
        else (w, false)

/-- A full poll sweep over the open documents, collecting the keys for which
a signal was emitted. -/
def pollSweep (cfg : Config) (env : HostEnv) (now : Int) (w : World) :
    World × List Key :=
  w.docs.foldl
    (fun acc d =>
      let (w', fired) := pollDoc cfg env now acc.1 d
      (w', if fired then acc.2 ++ [d.path] else acc.2))
    (w, [])

/-! ### Runtime Controller (lines 241-304, 353-381) -/

/-- `stopExternalWatchers` (lines 211-218): close all handles, clear all
five stores. -/
def stopExternalWatchers (e : ExtState) : ExtState :=
  { e with externalWatchers := [], knownMtimes := [], inFlight := [],
           lastEventAt := [], lastDirtyNotifyAt := [] }

/-- `restartWorkspaceWatcher` (lines 241-251): dispose any previous primary
watcher and create a fresh one. -/
def restartWorkspaceWatcher (e : ExtState) : ExtState :=
  { e with workspaceWatcher := some e.nextId, nextId := e.nextId + 1 }

/-- `restartPolling` (lines 253-271): clear any previous timer and start a
fresh one at the clamped configured interval. -/
def restartPolling (cfg : Config) (e : ExtState) : ExtState :=
  { e with pollTimer := some (e.nextId, getPollIntervalMs cfg), nextId := e.nextId + 1 }

/-- `stopRuntime` (lines 273-284). -/
def stopRuntime (e : ExtState) : ExtState :=
  stopExternalWatchers
    { e with workspaceWatcher := none, pollTimer := none, pollInProgress := false }

/-- `startRuntime` (lines 286-290). -/
def startRuntime (cfg : Config) (e : ExtState) : ExtState :=
  queueSyncExternalWatchers (restartPolling cfg (restartWorkspaceWatcher e))

/-- `applyEnabledState` (lines 292-304). -/
def applyEnabledState (cfg : Config) (e : ExtState) : ExtState :=
  if cfg.enabled = e.isRuntimeEnabled then e
  else
    let e := { e with isRuntimeEnabled := cfg.enabled }
    if cfg.enabled then startRuntime cfg e else stopRuntime e

/-- Which configuration keys a change event touches
(`event.affectsConfiguration`). -/
structure ConfigEvent where
  affectsRoot : Bool := true
  affectsGlob : Bool := false
  affectsPollInterval : Bool := false
deriving DecidableEq, Repr

/-- `onDidChangeConfiguration` handler (lines 353-381), state effects only
(status bar and logging omitted). -/
def onConfig (ev : ConfigEvent) (cfg : Config) (e : ExtState) : ExtState :=
  if ¬ev.affectsRoot then e
  else
    let wasEnabled := e.isRuntimeEnabled
    let e := applyEnabledState cfg e
    if ¬e.isRuntimeEnabled then e
    else if ¬wasEnabled then e
    else
      let e := if ev.affectsGlob then restartWorkspaceWatcher e else e
      let e := if ev.affectsPollInterval then restartPolling cfg e else e
      queueSyncExternalWatchers e

/-! ### Helper lemmas -/

theorem mget_mset_self {α : Type} (m : List (Key × α)) (k : Key) (v : α) :
    mget (mset m k v) k = some v := by
  simp [mget, mset]

theorem mget_mdel_ne {α : Type} (m : List (Key × α)) (k k' : Key)
    (h : k' ≠ k) : mget (mdel m k) k' = mget m k' := by
  induction m with
  | nil => rfl
  | cons p m ih =>
    obtain ⟨a, b⟩ := p
    by_cases hak : a = k <;> by_cases hak' : a = k' <;>
      simp_all [mdel, mget, List.filter_cons]

theorem mget_mdel_self {α : Type} (m : List (Key × α)) (k : Key) :
    mget (mdel m k) k = none := by
  induction m with
  | nil => rfl
  | cons p m ih =>
    obtain ⟨a, b⟩ := p
    by_cases hak : a = k <;> simp_all [mdel, mget, List.filter_cons]

theorem mget_mset_ne {α : Type} (m : List (Key × α)) (k k' : Key) (v : α)
    (h : k' ≠ k) : mget (mset m k v) k' = mget m k' := by
  rw [mset]
  show (if k = k' then some v else mget (mdel m k) k') = mget m k'
  rw [if_neg (fun hc : k = k' => h (hc ▸ rfl))]
  exact mget_mdel_ne m k k' h

/-- A clamp to the closed interval `[lo, hi]`, written the way the spec
reads it. -/
def clampSpec (lo hi v : Int) : Int :=
  if v < lo then lo else if hi < v then hi else v

/-- `setDirty` touches only the documents. -/
@[simp] theorem setDirty_ext (w : World) (k : Key) (b : Bool) :
    (setDirty w k b).ext = w.ext := rfl

@[simp] theorem setDirty_disk (w : World) (k : Key) (b : Bool) :
    (setDirty w k b).disk = w.disk := rfl

/-- `applyRevert` touches only the documents. -/
theorem applyRevert_ext (w : World) (k : Key) : (applyRevert w k).ext = w.ext := by
  unfold applyRevert
  rcases h : w.disk k with - | ⟨c, m⟩ <;> simp

theorem applyRevert_disk (w : World) (k : Key) : (applyRevert w k).disk = w.disk := by
  unfold applyRevert
  rcases h : w.disk k with - | ⟨c, m⟩ <;> simp

/-- `refreshKnownMtime` rewrites at most the known-mtime store. -/
theorem refreshKnownMtime_shape (w : World) (k : Key) :
    ∃ km, refreshKnownMtime w k = { w with ext := { w.ext with knownMtimes := km } } := by
  unfold refreshKnownMtime
  rcases h : statMtimeMs w k with - | m
  · exact ⟨w.ext.knownMtimes, rfl⟩
  · exact ⟨mset w.ext.knownMtimes k m, rfl⟩

/-- `revertDocument` rewrites at most the known-mtime store and the
documents: every other extension field, and the disk, is untouched —
on the success path. -/
theorem revertDocument_ok_shape (cfg : Config) (env : HostEnv) (w : World)
    (k : Key) (r : Bool) (w' : World)
    (h : revertDocument cfg env w k = .ok (r, w')) :
    ∃ km ds, w' = { w with ext := { w.ext with knownMtimes := km }, docs := ds } := by
  unfold revertDocument at h
  dsimp only at h
  split at h
  · exact ⟨w.ext.knownMtimes, w.docs, by cases h; rfl⟩
  · split at h
    · obtain ⟨km, hkm⟩ := refreshKnownMtime_shape (applyRevert w k) k
      refine ⟨km, (refreshKnownMtime (applyRevert w k) k).docs, ?_⟩
      cases h
      rw [hkm]
      have he := applyRevert_ext w k
      have hd : (applyRevert w k).disk = w.disk := applyRevert_disk w k
      cases hw : applyRevert w k
      simp only [hw] at he hd hkm ⊢
      simp [he, hd]
    · split at h
      · exact ⟨w.ext.knownMtimes, w.docs, by cases h; rfl⟩
      · split at h
        · exact ⟨w.ext.knownMtimes, (setDirty w k env.dirtyAtRecheck).docs,
            by cases h; rfl⟩
        · split at h
          · cases h
          · obtain ⟨km, hkm⟩ :=
              refreshKnownMtime_shape (applyRevert (setDirty w k env.dirtyAtRecheck) k) k
            refine ⟨km,
              (refreshKnownMtime (applyRevert (setDirty w k env.dirtyAtRecheck) k) k).docs, ?_⟩
            cases h
            rw [hkm]
            have he : (applyRevert (setDirty w k env.dirtyAtRecheck) k).ext = w.ext := by
              rw [applyRevert_ext, setDirty_ext]
            have hd : (applyRevert (setDirty w k env.dirtyAtRecheck) k).disk = w.disk := by
              rw [applyRevert_disk, setDirty_disk]
            cases hw : applyRevert (setDirty w k env.dirtyAtRecheck) k
            simp only [hw] at he hd hkm ⊢
            simp [he, hd]

/-- On the error path `revertDocument` has only re-read the dirty bit:
the thrown-at world differs from the input in documents alone. -/
theorem revertDocument_error_shape (cfg : Config) (env : HostEnv) (w : World)
    (k : Key) (w' : World) (h : revertDocument cfg env w k = .error w') :
    ∃ ds, w' = { w with docs := ds } := by
  unfold revertDocument at h
  dsimp only at h
  split at h
  · cases h
  · split at h
    · cases h
    · split at h
      · cases h
      · split at h
        · cases h
        · split at h
          · exact ⟨(setDirty w k env.dirtyAtRecheck).docs, by cases h; rfl⟩
          · cases h

/-! ### Claim C9 -/

/-- Claim C9: the effective `pollIntervalMs` is the configured value
(default 1000) clamped to the closed interval `[250, 60000]`, and the
effective `debounceMs` is the configured value (default 300) clamped to the
closed interval `[50, 5000]`, for every configured input value. -/
theorem C9_clamped_intervals (p d : Int) :
    getPollIntervalMs { pollIntervalMs := some p } = clampSpec 250 60000 p ∧
    getDebounceMs { debounceMs := some d } = clampSpec 50 5000 d ∧
    getPollIntervalMs { } = 1000 ∧
    getDebounceMs { } = 300 ∧
    250 ≤ getPollIntervalMs { pollIntervalMs := some p } ∧
    getPollIntervalMs { pollIntervalMs := some p } ≤ 60000 ∧
    50 ≤ getDebounceMs { debounceMs := some d } ∧
    getDebounceMs { debounceMs := some d } ≤ 5000 := by
  unfold getPollIntervalMs getDebounceMs clampSpec
  refine ⟨?_, ?_, rfl, rfl, ?_, ?_, ?_, ?_⟩ <;> simp only [Option.getD_some] <;> omega

/-! Projection lemmas for the world combinators. -/

@[simp] theorem recordEvent_inFlight (w : World) (k : Key) (n : Int) :
    (recordEvent w k n).ext.inFlight = w.ext.inFlight := rfl

@[simp] theorem recordEvent_lastEventAt (w : World) (k : Key) (n : Int) :
    (recordEvent w k n).ext.lastEventAt = mset w.ext.lastEventAt k n := rfl

@[simp] theorem recordEvent_lastDirtyNotifyAt (w : World) (k : Key) (n : Int) :
    (recordEvent w k n).ext.lastDirtyNotifyAt = w.ext.lastDirtyNotifyAt := rfl

@[simp] theorem recordEvent_knownMtimes (w : World) (k : Key) (n : Int) :
    (recordEvent w k n).ext.knownMtimes = w.ext.knownMtimes := rfl

@[simp] theorem recordEvent_docs (w : World) (k : Key) (n : Int) :
    (recordEvent w k n).docs = w.docs := rfl

@[simp] theorem recordEvent_disk (w : World) (k : Key) (n : Int) :
    (recordEvent w k n).disk = w.disk := rfl

@[simp] theorem markInFlight_inFlight (w : World) (k : Key) :
    (markInFlight w k).ext.inFlight = k :: w.ext.inFlight := rfl

@[simp] theorem markInFlight_lastEventAt (w : World) (k : Key) :
    (markInFlight w k).ext.lastEventAt = w.ext.lastEventAt := rfl

@[simp] theorem markInFlight_lastDirtyNotifyAt (w : World) (k : Key) :
    (markInFlight w k).ext.lastDirtyNotifyAt = w.ext.lastDirtyNotifyAt := rfl

@[simp] theorem markInFlight_knownMtimes (w : World) (k : Key) :
    (markInFlight w k).ext.knownMtimes = w.ext.knownMtimes := rfl

@[simp] theorem markInFlight_docs (w : World) (k : Key) :
    (markInFlight w k).docs = w.docs := rfl

@[simp] theorem markInFlight_disk (w : World) (k : Key) :
    (markInFlight w k).disk = w.disk := rfl

@[simp] theorem clearInFlightW_inFlight (w : World) (k : Key) :
    (clearInFlightW w k).ext.inFlight = w.ext.inFlight.filter (fun x => x ≠ k) := rfl

@[simp] theorem clearInFlightW_lastEventAt (w : World) (k : Key) :
    (clearInFlightW w k).ext.lastEventAt = w.ext.lastEventAt := rfl

@[simp] theorem clearInFlightW_lastDirtyNotifyAt (w : World) (k : Key) :
    (clearInFlightW w k).ext.lastDirtyNotifyAt = w.ext.lastDirtyNotifyAt := rfl

@[simp] theorem clearInFlightW_knownMtimes (w : World) (k : Key) :
    (clearInFlightW w k).ext.knownMtimes = w.ext.knownMtimes := rfl

@[simp] theorem clearInFlightW_docs (w : World) (k : Key) :
    (clearInFlightW w k).docs = w.docs := rfl

@[simp] theorem clearInFlightW_disk (w : World) (k : Key) :
    (clearInFlightW w k).disk = w.disk := rfl

@[simp] theorem recordDirtyNotify_inFlight (w : World) (k : Key) (n : Int) :
    (recordDirtyNotify w k n).ext.inFlight = w.ext.inFlight := rfl

@[simp] theorem recordDirtyNotify_lastEventAt (w : World) (k : Key) (n : Int) :
    (recordDirtyNotify w k n).ext.lastEventAt = w.ext.lastEventAt := rfl

@[simp] theorem recordDirtyNotify_lastDirtyNotifyAt (w : World) (k : Key) (n : Int) :
    (recordDirtyNotify w k n).ext.lastDirtyNotifyAt = mset w.ext.lastDirtyNotifyAt k n := rfl

@[simp] theorem recordDirtyNotify_knownMtimes (w : World) (k : Key) (n : Int) :
    (recordDirtyNotify w k n).ext.knownMtimes = w.ext.knownMtimes := rfl

@[simp] theorem recordDirtyNotify_docs (w : World) (k : Key) (n : Int) :
    (recordDirtyNotify w k n).docs = w.docs := rfl

@[simp] theorem recordDirtyNotify_disk (w : World) (k : Key) (n : Int) :
    (recordDirtyNotify w k n).disk = w.disk := rfl

@[simp] theorem findOpenDocByPath_recordEvent (w : World) (k : Key) (n : Int) (k' : Key) :
    findOpenDocByPath (recordEvent w k n) k' = findOpenDocByPath w k' := rfl

@[simp] theorem findOpenDocByPath_markInFlight (w : World) (k k' : Key) :
    findOpenDocByPath (markInFlight w k) k' = findOpenDocByPath w k' := rfl

@[simp] theorem findOpenDocByPath_clearInFlightW (w : World) (k k' : Key) :
    findOpenDocByPath (clearInFlightW w k) k' = findOpenDocByPath w k' := rfl

@[simp] theorem findOpenDocByPath_recordDirtyNotify (w : World) (k : Key) (n : Int)
    (k' : Key) : findOpenDocByPath (recordDirtyNotify w k n) k' = findOpenDocByPath w k' := rfl

/-- Complete enumeration of the arbiter's evaluation paths for an enabled
runtime and a `file`-scheme uri: exactly one of the eight source paths is
taken, and each gives the exact outcome and post-state. -/
theorem arbiter_cases (cfg : Config) (env : HostEnv) (w : World) (k : Key)
    (now : Int) (hen : w.ext.isRuntimeEnabled = true) :
    (now - (mget w.ext.lastEventAt k).getD 0 < getDebounceMs cfg ∧
      maybeReloadForUri cfg env w ⟨"file", k⟩ now = (.debounceDrop, w)) ∨
    (¬(now - (mget w.ext.lastEventAt k).getD 0 < getDebounceMs cfg) ∧
      w.ext.inFlight.contains k = true ∧
      maybeReloadForUri cfg env w ⟨"file", k⟩ now =
        (.inFlightDrop, recordEvent w k now)) ∨
    (¬(now - (mget w.ext.lastEventAt k).getD 0 < getDebounceMs cfg) ∧
      w.ext.inFlight.contains k = false ∧
      findOpenDocByPath w k = none ∧
      maybeReloadForUri cfg env w ⟨"file", k⟩ now =
        (.noDocDrop, clearInFlightW (markInFlight (recordEvent w k now) k) k)) ∨
    (∃ d, ¬(now - (mget w.ext.lastEventAt k).getD 0 < getDebounceMs cfg) ∧
      w.ext.inFlight.contains k = false ∧
      findOpenDocByPath w k = some d ∧ d.isDirty = true ∧
      notifyOnDirtyVal cfg = false ∧
      maybeReloadForUri cfg env w ⟨"file", k⟩ now =
        (.dirtyNoNotifyDrop, clearInFlightW (markInFlight (recordEvent w k now) k) k)) ∨
    (∃ d, ¬(now - (mget w.ext.lastEventAt k).getD 0 < getDebounceMs cfg) ∧
      w.ext.inFlight.contains k = false ∧
      findOpenDocByPath w k = some d ∧ d.isDirty = true ∧
      notifyOnDirtyVal cfg = true ∧
      now - (mget w.ext.lastDirtyNotifyAt k).getD 0 < DIRTY_NOTIFY_COOLDOWN_MS ∧
      maybeReloadForUri cfg env w ⟨"file", k⟩ now =
        (.dirtyCooldownDrop, clearInFlightW (markInFlight (recordEvent w k now) k) k)) ∨
    (∃ d, ¬(now - (mget w.ext.lastEventAt k).getD 0 < getDebounceMs cfg) ∧
      w.ext.inFlight.contains k = false ∧
      findOpenDocByPath w k = some d ∧ d.isDirty = true ∧
      notifyOnDirtyVal cfg = true ∧
      ¬(now - (mget w.ext.lastDirtyNotifyAt k).getD 0 < DIRTY_NOTIFY_COOLDOWN_MS) ∧
      arbiterPhase1 cfg env w ⟨"file", k⟩ now =
        .atPrompt (recordDirtyNotify (markInFlight (recordEvent w k now) k) k now) ∧
      maybeReloadForUri cfg env w ⟨"file", k⟩ now =
        arbiterResume cfg env
          (recordDirtyNotify (markInFlight (recordEvent w k now) k) k now) k) ∨
    (∃ d r w', ¬(now - (mget w.ext.lastEventAt k).getD 0 < getDebounceMs cfg) ∧
      w.ext.inFlight.contains k = false ∧
      findOpenDocByPath w k = some d ∧ d.isDirty = false ∧
      revertDocument cfg env (markInFlight (recordEvent w k now) k) k = .ok (r, w') ∧
      maybeReloadForUri cfg env w ⟨"file", k⟩ now =
        (.reloadPath r, clearInFlightW w' k)) ∨
    (∃ d w', ¬(now - (mget w.ext.lastEventAt k).getD 0 < getDebounceMs cfg) ∧
      w.ext.inFlight.contains k = false ∧
      findOpenDocByPath w k = some d ∧ d.isDirty = false ∧
      revertDocument cfg env (markInFlight (recordEvent w k now) k) k = .error w' ∧
      maybeReloadForUri cfg env w ⟨"file", k⟩ now = (.errored, clearInFlightW w' k)) := by
  by_cases h1 : now - (mget w.ext.lastEventAt k).getD 0 < getDebounceMs cfg
  · exact .inl ⟨h1, by simp [maybeReloadForUri, arbiterPhase1, hen, h1]⟩
  by_cases h2 : k ∈ w.ext.inFlight
  · exact .inr (.inl ⟨h1, by simpa using h2,
      by simp [maybeReloadForUri, arbiterPhase1, hen, h1, h2]⟩)
  have h2f : w.ext.inFlight.contains k = false := by simpa using h2
  rcases h3 : findOpenDocByPath w k with - | d
  · refine .inr (.inr (.inl ⟨h1, h2f, rfl, ?_⟩))
    simp [maybeReloadForUri, arbiterPhase1, hen, h1, h2, h3]
  by_cases h4 : d.isDirty
  · by_cases h5 : notifyOnDirtyVal cfg
    · by_cases h6 : now - (mget w.ext.lastDirtyNotifyAt k).getD 0 <
        DIRTY_NOTIFY_COOLDOWN_MS
      · refine .inr (.inr (.inr (.inr (.inl ⟨d, h1, h2f, rfl, h4, h5, h6, ?_⟩))))
        simp [maybeReloadForUri, arbiterPhase1, hen, h1, h2, h3, h4, h5, h6]
      · refine .inr (.inr (.inr (.inr (.inr (.inl ⟨d, h1, h2f, rfl, h4, h5, h6,
          ?_, ?_⟩)))))
        · simp [arbiterPhase1, hen, h1, h2, h3, h4, h5, h6]
        · simp [maybeReloadForUri, arbiterPhase1, hen, h1, h2, h3, h4, h5, h6]
    · have h5f : notifyOnDirtyVal cfg = false := by simpa using h5
      refine .inr (.inr (.inr (.inl ⟨d, h1, h2f, rfl, h4, h5f, ?_⟩)))
      simp [maybeReloadForUri, arbiterPhase1, hen, h1, h2, h3, h4, h5]
  · have h4f : d.isDirty = false := by simpa using h4
    rcases h5 : revertDocument cfg env (markInFlight (recordEvent w k now) k) k
      with w' | ⟨r, w'⟩
    · refine .inr (.inr (.inr (.inr (.inr (.inr (.inr
        ⟨d, w', h1, h2f, rfl, h4f, rfl, ?_⟩))))))
      simp [maybeReloadForUri, arbiterPhase1, hen, h1, h2, h3, h4, h5]
    · refine .inr (.inr (.inr (.inr (.inr (.inr (.inl
        ⟨d, r, w', h1, h2f, rfl, h4f, rfl, ?_⟩))))))
      simp [maybeReloadForUri, arbiterPhase1, hen, h1, h2, h3, h4, h5]

/-- Field-level frame facts for the success path of `revertDocument`. -/
theorem revertDocument_ok_frame (cfg : Config) (env : HostEnv) (w : World)
    (k : Key) (r : Bool) (w' : World)
    (h : revertDocument cfg env w k = .ok (r, w')) :
    w'.ext.inFlight = w.ext.inFlight ∧ w'.ext.lastEventAt = w.ext.lastEventAt ∧
    w'.ext.lastDirtyNotifyAt = w.ext.lastDirtyNotifyAt ∧
    w'.ext.externalWatchers = w.ext.externalWatchers ∧
    w'.ext.isRuntimeEnabled = w.ext.isRuntimeEnabled ∧ w'.disk = w.disk := by
  obtain ⟨km, ds, rfl⟩ := revertDocument_ok_shape cfg env w k r w' h
  exact ⟨rfl, rfl, rfl, rfl, rfl, rfl⟩

/-- Field-level frame facts for the error path of `revertDocument`. -/
theorem revertDocument_error_frame (cfg : Config) (env : HostEnv) (w : World)
    (k : Key) (w' : World) (h : revertDocument cfg env w k = .error w') :
    w'.ext = w.ext ∧ w'.disk = w.disk := by
  obtain ⟨ds, rfl⟩ := revertDocument_error_shape cfg env w k w' h
  exact ⟨rfl, rfl⟩

/-- Shape of the resume phase: the outcome is a prompt verdict or the
propagated error, the in-flight flag for the key is removed, and the
timestamp stores are untouched. -/
theorem arbiterResume_shape (cfg : Config) (env : HostEnv) (w : World) (k : Key) :
    ∃ o w', arbiterResume cfg env w k = (o, w') ∧
      (o = .prompted true ∨ o = .prompted false ∨ o = .errored) ∧
      w'.ext.lastEventAt = w.ext.lastEventAt ∧
      w'.ext.lastDirtyNotifyAt = w.ext.lastDirtyNotifyAt ∧
      w'.ext.inFlight = w.ext.inFlight.filter (fun x => x ≠ k) ∧
      w'.disk = w.disk := by
  unfold arbiterResume
  dsimp only
  by_cases hc : env.promptChoiceReload
  · rw [if_pos hc]
    rcases h : revertDocument cfg env (setDirty w k env.dirtyAfterPrompt) k
      with w' | ⟨r, w'⟩
    · obtain ⟨hext, hdisk⟩ := revertDocument_error_frame _ _ _ _ _ h
      exact ⟨.errored, clearInFlightW w' k, rfl, .inr (.inr rfl),
        by simp [hext], by simp [hext], by simp [hext], by simp [hdisk]⟩
    · obtain ⟨h1, h2, h3, _, _, h6⟩ := revertDocument_ok_frame _ _ _ _ _ _ h
      refine ⟨.prompted r, clearInFlightW w' k, rfl, ?_,
        by simp [h2], by simp [h3], by simp [h1], by simp [h6]⟩
      cases r
      · exact .inr (.inl rfl)
      · exact .inl rfl
  · rw [if_neg hc]
    exact ⟨.prompted false, clearInFlightW (setDirty w k env.dirtyAfterPrompt) k,
      rfl, .inr (.inl rfl), rfl, rfl, rfl, rfl⟩

/-! ### Concrete scenario material -/

/-- A one-file disk: `"a"` holds content `"DISK"` with mtime 5. -/
def diskA : Key → Option (String × Int) :=
  fun k => if k = "a" then some ("DISK", 5) else none

/-- A clean open document at `"a"` displaying `"LOCAL"`. -/
def docA : Document := { path := "a", content := "LOCAL" }

/-- A dirty open document at `"a"` displaying `"LOCAL"`. -/
def dirtyDocA : Document := { path := "a", content := "LOCAL", isDirty := true }

/-- Enabled world, one clean open document at `"a"`. -/
def wClean : World :=
  { ext := { isRuntimeEnabled := true }, docs := [docA], disk := diskA }

/-- Enabled world, one dirty open document at `"a"`. -/
def wDirty : World :=
  { ext := { isRuntimeEnabled := true }, docs := [dirtyDocA], disk := diskA }

/-! ### Claim C2 -/

/-- Claim C2: for every key, the arbiter drops a signal exactly when the
elapsed time since the last accepted event is strictly below `debounceMs`
(dropping leaves the state untouched); once debounce passes, `now` is
recorded as the last-event time no matter how the evaluation ends; and at
the default `debounceMs = 300`, two raw events 299 ms apart yield one
accepted event while two events 301 ms apart yield two. -/
theorem C2_debounce_gate (cfg : Config) (env : HostEnv) (w : World) (k : Key)
    (now : Int) (hen : w.ext.isRuntimeEnabled = true) :
    (((maybeReloadForUri cfg env w ⟨"file", k⟩ now).1 = .debounceDrop) ↔
        now - (mget w.ext.lastEventAt k).getD 0 < getDebounceMs cfg) ∧
    ((maybeReloadForUri cfg env w ⟨"file", k⟩ now).1 = .debounceDrop →
        (maybeReloadForUri cfg env w ⟨"file", k⟩ now).2 = w) ∧
    (¬(now - (mget w.ext.lastEventAt k).getD 0 < getDebounceMs cfg) →
        mget (maybeReloadForUri cfg env w ⟨"file", k⟩ now).2.ext.lastEventAt k
          = some now) ∧
    ((maybeReloadForUri { } { } wClean ⟨"file", "a"⟩ 1000).1 = .reloadPath true ∧
      (maybeReloadForUri { } { }
        (maybeReloadForUri { } { } wClean ⟨"file", "a"⟩ 1000).2
        ⟨"file", "a"⟩ 1299).1 = .debounceDrop ∧
      (maybeReloadForUri { } { }
        (maybeReloadForUri { } { } wClean ⟨"file", "a"⟩ 1000).2
        ⟨"file", "a"⟩ 1301).1 = .reloadPath true) := by
  refine ⟨?_, ?_, ?_, by decide, by decide, by decide⟩ <;>
    rcases arbiter_cases cfg env w k now hen with
      ⟨h1, heq⟩ | ⟨h1, h2, heq⟩ | ⟨h1, h2, h3, heq⟩ |
      ⟨d, h1, h2, h3, h4, h5, heq⟩ | ⟨d, h1, h2, h3, h4, h5, h6, heq⟩ |
      ⟨d, h1, h2, h3, h4, h5, h6, hph, heq⟩ |
      ⟨d, r, w', h1, h2, h3, h4, hrd, heq⟩ | ⟨d, w', h1, h2, h3, h4, hrd, heq⟩
  · simp [heq, h1]
  · simp [heq, h1]
  · simp [heq, h1]
  · simp [heq, h1]
  · simp [heq, h1]
  · obtain ⟨o, w', hres, ho, -⟩ :=
      arbiterResume_shape cfg env
        (recordDirtyNotify (markInFlight (recordEvent w k now) k) k now) k
    rw [heq, hres]
    rcases ho with ho | ho | ho <;> simp [ho, h1]
  · simp [heq, h1]
  · simp [heq, h1]
  · simp [heq]
  · simp [heq]
  · simp [heq]
  · simp [heq]
  · simp [heq]
  · obtain ⟨o, w', hres, ho, -⟩ :=
      arbiterResume_shape cfg env
        (recordDirtyNotify (markInFlight (recordEvent w k now) k) k now) k
    rw [heq, hres]
    rcases ho with ho | ho | ho <;> simp [ho]
  · simp [heq]
  · simp [heq]
  · intro hd; exact absurd h1 (by simpa using hd)
  · intro hd; simp [heq, mget_mset_self]
  · intro hd; simp [heq, mget_mset_self]
  · intro hd; simp [heq, mget_mset_self]
  · intro hd; simp [heq, mget_mset_self]
  · intro hd
    obtain ⟨o, w', hres, -, hlast, -⟩ :=
      arbiterResume_shape cfg env
        (recordDirtyNotify (markInFlight (recordEvent w k now) k) k now) k
    rw [heq, hres]
    simp [hlast, mget_mset_self]
  · intro hd
    obtain ⟨hf, hlast, -⟩ := revertDocument_ok_frame _ _ _ _ _ _ hrd
    simp [heq, hlast, mget_mset_self]
  · intro hd
    obtain ⟨hext, -⟩ := revertDocument_error_frame _ _ _ _ _ hrd
    simp [heq, hext, mget_mset_self]

/-- A key never survives the `finally` filter. -/
theorem contains_filter_ne (l : List Key) (k : Key) :
    (l.filter (fun x => x ≠ k)).contains k = false := by
  simp [List.mem_filter]

/-- The only way phase 1 suspends is at the dirty-conflict prompt, after
`inFlight.add`: the suspended world holds the in-flight flag. -/
theorem arbiterPhase1_atPrompt_inFlight (cfg : Config) (env : HostEnv)
    (w : World) (uri : Uri) (now : Int) (w' : World)
    (h : arbiterPhase1 cfg env w uri now = .atPrompt w') :
    w'.ext.inFlight.contains uri.path = true := by
  unfold arbiterPhase1 at h
  dsimp only at h
  split at h
  · cases h
  · split at h
    · cases h
    · split at h
      · cases h
      · split at h
        · cases h
        · split at h
          · cases h
          · split at h
            · split at h
              · cases h
              · split at h
                · cases h
                · cases h
                  simp
            · split at h <;> cases h

/-- Witness for the C2 theorem at a concrete input. -/
theorem C2_debounce_gate_witness :
    wClean.ext.isRuntimeEnabled = true ∧
    ((maybeReloadForUri { } { } wClean ⟨"file", "a"⟩ 1000).1 = .debounceDrop ↔
      (1000 : Int) - (mget wClean.ext.lastEventAt "a").getD 0 < getDebounceMs { }) :=
  ⟨rfl, (C2_debounce_gate { } { } wClean "a" 1000 rfl).1⟩

/-! ### Claim C1 -/

/-- Claim C1: per key, at most one evaluation is in progress — a signal
arriving while the key's in-flight flag is set is dropped (leaving the
in-flight set untouched), the flag is held across the awaited dirty-conflict
prompt, and the flag is cleared on every exit path (success, early return,
error) of an evaluation that set it. -/
theorem C1_single_flight (cfg : Config) (env : HostEnv) (w : World) (k : Key)
    (now : Int) (hen : w.ext.isRuntimeEnabled = true) :
    (w.ext.inFlight.contains k = true →
      ((maybeReloadForUri cfg env w ⟨"file", k⟩ now).1 = .debounceDrop ∨
        (maybeReloadForUri cfg env w ⟨"file", k⟩ now).1 = .inFlightDrop) ∧
      (maybeReloadForUri cfg env w ⟨"file", k⟩ now).2.ext.inFlight
        = w.ext.inFlight) ∧
    (∀ w', arbiterPhase1 cfg env w ⟨"file", k⟩ now = .atPrompt w' →
      w'.ext.inFlight.contains k = true) ∧
    (w.ext.inFlight.contains k = false →
      (maybeReloadForUri cfg env w ⟨"file", k⟩ now).2.ext.inFlight.contains k
        = false) := by
  refine ⟨?_, ?_, ?_⟩
  · intro hin
    rcases arbiter_cases cfg env w k now hen with
      ⟨h1, heq⟩ | ⟨h1, h2, heq⟩ | ⟨h1, h2, h3, heq⟩ |
      ⟨d, h1, h2, h3, h4, h5, heq⟩ | ⟨d, h1, h2, h3, h4, h5, h6, heq⟩ |
      ⟨d, h1, h2, h3, h4, h5, h6, hph, heq⟩ |
      ⟨d, r, w', h1, h2, h3, h4, hrd, heq⟩ | ⟨d, w', h1, h2, h3, h4, hrd, heq⟩
    · exact ⟨.inl (by simp [heq]), by simp [heq]⟩
    · exact ⟨.inr (by simp [heq]), by simp [heq]⟩
    all_goals exact absurd hin (by simpa using h2)
  · intro w' h
    exact arbiterPhase1_atPrompt_inFlight cfg env w ⟨"file", k⟩ now w' h
  · intro hout
    rcases arbiter_cases cfg env w k now hen with
      ⟨h1, heq⟩ | ⟨h1, h2, heq⟩ | ⟨h1, h2, h3, heq⟩ |
      ⟨d, h1, h2, h3, h4, h5, heq⟩ | ⟨d, h1, h2, h3, h4, h5, h6, heq⟩ |
      ⟨d, h1, h2, h3, h4, h5, h6, hph, heq⟩ |
      ⟨d, r, w', h1, h2, h3, h4, hrd, heq⟩ | ⟨d, w', h1, h2, h3, h4, hrd, heq⟩
    · simpa [heq] using hout
    · exact absurd hout (by simpa using h2)
    · simp [heq, contains_filter_ne]
    · simp [heq, contains_filter_ne]
    · simp [heq, contains_filter_ne]
    · obtain ⟨o, wr, hres, -, -, -, hfl, -⟩ :=
        arbiterResume_shape cfg env
          (recordDirtyNotify (markInFlight (recordEvent w k now) k) k now) k
      rw [heq, hres]
      simp only [hfl]
      simp [contains_filter_ne]
    · obtain ⟨hf, -⟩ := revertDocument_ok_frame _ _ _ _ _ _ hrd
      rw [heq]
      simp only [clearInFlightW_inFlight, hf, markInFlight_inFlight]
      simp [contains_filter_ne]
    · obtain ⟨hext, -⟩ := revertDocument_error_frame _ _ _ _ _ hrd
      rw [heq]
      simp only [clearInFlightW_inFlight, hext, markInFlight_inFlight]
      simp [contains_filter_ne]

/-- Witness for the C1 theorem at a concrete input. -/
theorem C1_single_flight_witness :
    wClean.ext.inFlight.contains "a" = false ∧
    (maybeReloadForUri { } { } wClean ⟨"file", "a"⟩ 1000).2.ext.inFlight.contains "a"
      = false :=
  ⟨by decide, (C1_single_flight { } { } wClean "a" 1000 rfl).2.2 (by decide)⟩

/-! ### Documents under `setDirty` -/

/-- A found document carries the scheme and path the search asked for. -/
theorem findOpenDocByPath_props (w : World) (k : Key) (d : Document)
    (h : findOpenDocByPath w k = some d) : d.scheme = "file" ∧ d.path = k := by
  have := List.find?_some h
  simpa using this

theorem findOpenDocByPath_setDirty (w : World) (k : Key) (b : Bool) (k' : Key) :
    findOpenDocByPath (setDirty w k b) k' =
      (findOpenDocByPath w k').map
        (fun d => if d.path = k then { d with isDirty := b } else d) := by
  unfold findOpenDocByPath setDirty
  rw [List.find?_map]
  have hpf : ((fun d => decide (d.scheme = "file") && decide (d.path = k')) ∘
      (fun d => if d.path = k then { d with isDirty := b } else d)) =
      (fun d : Document => decide (d.scheme = "file") && decide (d.path = k')) := by
    funext d
    by_cases h : d.path = k <;> simp [Function.comp, h]
  rw [hpf]

/-- Flipping the dirty bit never changes displayed content. -/
theorem docContent_setDirty (w : World) (k : Key) (b : Bool) (k' : Key) :
    docContent (setDirty w k b) k' = docContent w k' := by
  unfold docContent
  rw [findOpenDocByPath_setDirty]
  rcases findOpenDocByPath w k' with - | d
  · rfl
  · by_cases h : d.path = k <;> simp [h]

/-- After `setDirty w k b`, the document at `k` (when present) reads dirty
bit `b`. -/
theorem docIsDirty_setDirty_self (w : World) (k : Key) (b : Bool)
    (h : (findOpenDocByPath w k).isSome = true) :
    docIsDirty (setDirty w k b) k = b := by
  rcases hf : findOpenDocByPath w k with - | d
  · rw [hf] at h; cases h
  · obtain ⟨-, hp⟩ := findOpenDocByPath_props w k d hf
    unfold docIsDirty
    rw [findOpenDocByPath_setDirty, hf]
    simp [hp]

@[simp] theorem docContent_recordEvent (w : World) (k : Key) (n : Int) (k' : Key) :
    docContent (recordEvent w k n) k' = docContent w k' := rfl

@[simp] theorem docContent_markInFlight (w : World) (k k' : Key) :
    docContent (markInFlight w k) k' = docContent w k' := rfl

@[simp] theorem docContent_clearInFlightW (w : World) (k k' : Key) :
    docContent (clearInFlightW w k) k' = docContent w k' := rfl

@[simp] theorem docContent_recordDirtyNotify (w : World) (k : Key) (n : Int)
    (k' : Key) : docContent (recordDirtyNotify w k n) k' = docContent w k' := rfl

/-! ### Claim C3 -/

/-- Claim C3: a dirty document is never reloaded by the automatic path.
With the document dirty and its dirtiness unchanged across the awaited
suspension points, arbitrating a change signal never changes the displayed
content; and `revertDocument` re-checks dirtiness immediately before each
destructive revert (the entry check before `revertResource`, and the
re-check before the fallback revert) and returns `false` without reloading
when dirty. -/
theorem C3_dirty_protected (cfg : Config) (env : HostEnv) (w : World)
    (k : Key) (now : Int)
    (hdirty : docIsDirty w k = true)
    (hp : env.dirtyAfterPrompt = true)
    (hr : env.dirtyAtRecheck = true) :
    docContent (maybeReloadForUri cfg env w ⟨"file", k⟩ now).2 k = docContent w k ∧
    (∀ w', docIsDirty w' k = true → revertDocument cfg env w' k = .ok (false, w')) ∧
    (∀ w', env.revertResourceOk = false → (findOpenDocByPath w' k).isSome = true →
      ∃ w'', revertDocument cfg env w' k = .ok (false, w'') ∧
        docContent w'' k = docContent w' k) := by
  refine ⟨?_, ?_, ?_⟩
  · by_cases hen : w.ext.isRuntimeEnabled = true
    · rcases arbiter_cases cfg env w k now hen with
        ⟨h1, heq⟩ | ⟨h1, h2, heq⟩ | ⟨h1, h2, h3, heq⟩ |
        ⟨d, h1, h2, h3, h4, h5, heq⟩ | ⟨d, h1, h2, h3, h4, h5, h6, heq⟩ |
        ⟨d, h1, h2, h3, h4, h5, h6, hph, heq⟩ |
        ⟨d, r, w', h1, h2, h3, h4, hrd, heq⟩ | ⟨d, w', h1, h2, h3, h4, hrd, heq⟩
      · simp [heq]
      · simp [heq]
      · simp [heq]
      · simp [heq]
      · simp [heq]
      · -- the prompt path: the document stays dirty, so the executor's
        -- entry guard fires whatever the user chose
        rw [heq]
        unfold arbiterResume
        dsimp only
        set wP := recordDirtyNotify (markInFlight (recordEvent w k now) k) k now with hwP
        have hsome : (findOpenDocByPath wP k).isSome = true := by
          have : findOpenDocByPath wP k = findOpenDocByPath w k := rfl
          rw [this, h3]; rfl
        have hdd : docIsDirty (setDirty wP k env.dirtyAfterPrompt) k = true := by
          rw [docIsDirty_setDirty_self wP k _ hsome, hp]
        by_cases hch : env.promptChoiceReload
        · rw [if_pos hch]
          rw [show revertDocument cfg env (setDirty wP k env.dirtyAfterPrompt) k
              = .ok (false, setDirty wP k env.dirtyAfterPrompt) by
            unfold revertDocument; rw [if_pos hdd]]
          simp [docContent_setDirty, hwP]
        · rw [if_neg hch]
          simp [docContent_setDirty, hwP]
      · have : d.isDirty = true := by
          unfold docIsDirty at hdirty
          rw [h3] at hdirty
          simpa using hdirty
        rw [this] at h4; cases h4
      · have : d.isDirty = true := by
          unfold docIsDirty at hdirty
          rw [h3] at hdirty
          simpa using hdirty
        rw [this] at h4; cases h4
    · have : maybeReloadForUri cfg env w ⟨"file", k⟩ now = (.disabledDrop, w) := by
        simp [maybeReloadForUri, arbiterPhase1, hen]
      simp [this]
  · intro w' h
    unfold revertDocument
    rw [if_pos h]
  · intro w' hok hsome
    by_cases hd : docIsDirty w' k = true
    · exact ⟨w', by unfold revertDocument; rw [if_pos hd], rfl⟩
    · unfold revertDocument
      rw [if_neg hd, if_neg (by simp [hok])]
      dsimp only
      by_cases hfoc : ¬env.activeDoc = some k ∧ ¬stealFocusVal cfg = true
      · exact ⟨w', by rw [if_pos hfoc], rfl⟩
      · rw [if_neg hfoc]
        have hdd : docIsDirty (setDirty w' k env.dirtyAtRecheck) k = true := by
          rw [docIsDirty_setDirty_self w' k _ hsome, hr]
        rw [if_pos hdd]
        exact ⟨setDirty w' k env.dirtyAtRecheck, rfl, docContent_setDirty w' k _ k⟩

/-- Witness for the C3 theorem at a concrete input. -/
theorem C3_dirty_protected_witness :
    docIsDirty wDirty "a" = true ∧
    docContent (maybeReloadForUri { }
        { promptChoiceReload := true, dirtyAfterPrompt := true, dirtyAtRecheck := true }
        wDirty ⟨"file", "a"⟩ 10000).2 "a" = docContent wDirty "a" :=
  ⟨by decide,
    (C3_dirty_protected { }
      { promptChoiceReload := true, dirtyAfterPrompt := true, dirtyAtRecheck := true }
      wDirty "a" 10000 (by decide) rfl rfl).1⟩

/-! ### Claim C4 -/

/-- Host behaviour: the user answers the dirty-conflict prompt with
"Reload from disk (discard local changes)", and the document's dirtiness is
unchanged across the awaited prompt (nothing else modified the buffer). -/
def envDiscard : HostEnv := { promptChoiceReload := true, dirtyAfterPrompt := true }

/-- Claim C4 (divergence witness): for a dirty open document whose prompt is
answered with the discard choice, the evaluation reaches the prompt, the
discard choice invokes `revertDocument` — but `revertDocument`'s dirty entry
guard (line 97) returns `false` immediately, so the buffer keeps its local
content `"LOCAL"` and is never replaced by the on-disk content `"DISK"`. -/
theorem C4_discard_choice_is_noop :
    docIsDirty wDirty "a" = true ∧
    notifyOnDirtyVal { } = true ∧
    (∃ w', arbiterPhase1 { } envDiscard wDirty ⟨"file", "a"⟩ 10000 = .atPrompt w') ∧
    (maybeReloadForUri { } envDiscard wDirty ⟨"file", "a"⟩ 10000).1
      = .prompted false ∧
    docContent (maybeReloadForUri { } envDiscard wDirty ⟨"file", "a"⟩ 10000).2 "a"
      = some "LOCAL" ∧
    (diskA "a").map (fun p => p.1) = some "DISK" ∧
    revertDocument { } envDiscard (setDirty wDirty "a" true) "a"
      = .ok (false, setDirty wDirty "a" true) :=
  ⟨by decide, rfl, ⟨_, rfl⟩, by decide, by decide, rfl, rfl⟩

/-! ### Claim C5 -/

/-- Host behaviour for the C5 scenario: the prompt is answered with
"Ignore" and the document stays dirty. -/
def envIgnore : HostEnv := { dirtyAfterPrompt := true }

/-- Claim C5: dirty-conflict prompts are rate-limited per key by the fixed
4000 ms cooldown, separately from debounce: once a dirty signal passes
debounce and in-flight checks, the prompt is shown exactly when the elapsed
time since the last dirty notification is at least 4000 ms, and otherwise
the signal is dropped with a cooldown verdict.  With default settings two
dirty events 1000 ms apart produce exactly one prompt, and 5000 ms apart
two prompts. -/
theorem C5_dirty_prompt_cooldown (cfg : Config) (env : HostEnv) (w : World)
    (k : Key) (now : Int)
    (hen : w.ext.isRuntimeEnabled = true)
    (hdeb : ¬(now - (mget w.ext.lastEventAt k).getD 0 < getDebounceMs cfg))
    (hnf : w.ext.inFlight.contains k = false)
    (d : Document) (hdoc : findOpenDocByPath w k = some d) (hd : d.isDirty = true)
    (hnot : notifyOnDirtyVal cfg = true) :
    ((∃ w', arbiterPhase1 cfg env w ⟨"file", k⟩ now = .atPrompt w') ↔
      ¬(now - (mget w.ext.lastDirtyNotifyAt k).getD 0 < DIRTY_NOTIFY_COOLDOWN_MS)) ∧
    (now - (mget w.ext.lastDirtyNotifyAt k).getD 0 < DIRTY_NOTIFY_COOLDOWN_MS →
      (maybeReloadForUri cfg env w ⟨"file", k⟩ now).1 = .dirtyCooldownDrop) ∧
    DIRTY_NOTIFY_COOLDOWN_MS = 4000 ∧
    ((maybeReloadForUri { } envIgnore wDirty ⟨"file", "a"⟩ 10000).1
        = .prompted false ∧
      (maybeReloadForUri { } envIgnore
        (maybeReloadForUri { } envIgnore wDirty ⟨"file", "a"⟩ 10000).2
        ⟨"file", "a"⟩ 11000).1 = .dirtyCooldownDrop ∧
      (maybeReloadForUri { } envIgnore
        (maybeReloadForUri { } envIgnore wDirty ⟨"file", "a"⟩ 10000).2
        ⟨"file", "a"⟩ 15000).1 = .prompted false) := by
  have hcase :
      (now - (mget w.ext.lastDirtyNotifyAt k).getD 0 < DIRTY_NOTIFY_COOLDOWN_MS ∧
        maybeReloadForUri cfg env w ⟨"file", k⟩ now =
          (.dirtyCooldownDrop,
            clearInFlightW (markInFlight (recordEvent w k now) k) k)) ∨
      (¬(now - (mget w.ext.lastDirtyNotifyAt k).getD 0 < DIRTY_NOTIFY_COOLDOWN_MS) ∧
        arbiterPhase1 cfg env w ⟨"file", k⟩ now =
          .atPrompt (recordDirtyNotify (markInFlight (recordEvent w k now) k) k now) ∧
        maybeReloadForUri cfg env w ⟨"file", k⟩ now =
          arbiterResume cfg env
            (recordDirtyNotify (markInFlight (recordEvent w k now) k) k now) k) := by
    rcases arbiter_cases cfg env w k now hen with
      ⟨h1, heq⟩ | ⟨h1, h2, heq⟩ | ⟨h1, h2, h3, heq⟩ |
      ⟨d0, h1, h2, h3, h4, h5, heq⟩ | ⟨d0, h1, h2, h3, h4, h5, h6, heq⟩ |
      ⟨d0, h1, h2, h3, h4, h5, h6, hph, heq⟩ |
      ⟨d0, r, w', h1, h2, h3, h4, hrd, heq⟩ | ⟨d0, w', h1, h2, h3, h4, hrd, heq⟩
    · exact absurd h1 hdeb
    · rw [hnf] at h2; cases h2
    · rw [hdoc] at h3; cases h3
    · rw [hdoc] at h3
      injection h3 with h3
      subst h3
      rw [hnot] at h5; cases h5
    · exact .inl ⟨h6, heq⟩
    · exact .inr ⟨h6, hph, heq⟩
    · rw [hdoc] at h3
      injection h3 with h3
      subst h3
      rw [hd] at h4; cases h4
    · rw [hdoc] at h3
      injection h3 with h3
      subst h3
      rw [hd] at h4; cases h4
  rcases hcase with ⟨hc, heq⟩ | ⟨hc, hph, heq⟩
  · refine ⟨⟨?_, fun h => absurd hc h⟩, fun _ => by rw [heq], rfl,
      by decide, by decide, by decide⟩
    rintro ⟨w', hph⟩
    obtain ⟨o, wr, hres, ho, -⟩ := arbiterResume_shape cfg env w' k
    have hout1 : (maybeReloadForUri cfg env w ⟨"file", k⟩ now).1 = o := by
      simp only [maybeReloadForUri, hph, hres]
    have hout2 : (maybeReloadForUri cfg env w ⟨"file", k⟩ now).1
        = .dirtyCooldownDrop := by rw [heq]
    rw [hout2] at hout1
    rcases ho with ho | ho | ho <;> rw [ho] at hout1 <;> simp at hout1
  · exact ⟨⟨fun _ => hc, fun _ => ⟨_, hph⟩⟩, fun h => absurd h hc, rfl,
      by decide, by decide, by decide⟩

/-- Witness for the C5 theorem at a concrete input. -/
theorem C5_dirty_prompt_cooldown_witness :
    (∃ w', arbiterPhase1 { } envIgnore wDirty ⟨"file", "a"⟩ 10000 = .atPrompt w') ↔
      ¬((10000 : Int) - (mget wDirty.ext.lastDirtyNotifyAt "a").getD 0
        < DIRTY_NOTIFY_COOLDOWN_MS) :=
  (C5_dirty_prompt_cooldown { } envIgnore wDirty "a" 10000 rfl (by decide)
    (by decide) dirtyDocA (by decide) rfl rfl).1

/-! ### Claim C6 -/

/-- Claim C6 (amended): the Enabled→Disabled transition itself establishes
the torn-down state — it disposes the primary watcher, stops the poll timer,
clears the poll guard, and closes and clears all per-file watcher handles
and all tracked-file state, so immediately after the transition no signal
source exists and the tracked state is empty.  (The stronger frozen claim —
that this holds whenever the runtime is disabled — fails: see the
counterexample, where an unguarded document-open reconciliation recreates
watcher handles while disabled.) -/
theorem C6_disable_transition_clears (cfg : Config) (e : ExtState)
    (hw : e.isRuntimeEnabled = true) (hc : cfg.enabled = false) :
    (applyEnabledState cfg e).isRuntimeEnabled = false ∧
    (applyEnabledState cfg e).workspaceWatcher = none ∧
    (applyEnabledState cfg e).pollTimer = none ∧
    (applyEnabledState cfg e).pollInProgress = false ∧
    (applyEnabledState cfg e).externalWatchers = [] ∧
    (applyEnabledState cfg e).knownMtimes = [] ∧
    (applyEnabledState cfg e).inFlight = [] ∧
    (applyEnabledState cfg e).lastEventAt = [] ∧
    (applyEnabledState cfg e).lastDirtyNotifyAt = [] := by
  have hne : ¬cfg.enabled = e.isRuntimeEnabled := by rw [hw, hc]; simp
  unfold applyEnabledState
  rw [if_neg hne, hc]
  simp [stopRuntime, stopExternalWatchers]

/-- Extension state reached by the Enabled→Disabled transition from a fully
running state. -/
def eDisabled6 : ExtState :=
  applyEnabledState { enabled := false }
    { isRuntimeEnabled := true, workspaceWatcher := some 0,
      pollTimer := some (1, 1000), externalWatchers := [("a", 2)],
      knownMtimes := [("a", 5)], nextId := 3 }

/-- Counterexample to claim C6 as stated: after the Enabled→Disabled
transition everything is indeed cleared, but the runtime-disabled invariant
is not preserved — the `onDidOpenTextDocument` handler enqueues a watcher
reconciliation with no enabled-guard, and running that reconciliation while
the runtime is disabled recreates a per-file external watcher handle and a
known-mtime entry.  So "whenever the runtime is disabled, zero per-file
watcher handles exist and the tracked state is empty" is false. -/
theorem C6_disabled_invariant_counterexample :
    eDisabled6.isRuntimeEnabled = false ∧
    eDisabled6.externalWatchers = [] ∧
    eDisabled6.knownMtimes = [] ∧
    (syncExternalWatchers (fun _ => true)
        { ext := onOpenOrClose eDisabled6, docs := [docA], disk := diskA
        }).ext.isRuntimeEnabled = false ∧
    (syncExternalWatchers (fun _ => true)
        { ext := onOpenOrClose eDisabled6, docs := [docA], disk := diskA
        }).ext.externalWatchers ≠ [] ∧
    (syncExternalWatchers (fun _ => true)
        { ext := onOpenOrClose eDisabled6, docs := [docA], disk := diskA
        }).ext.knownMtimes ≠ [] := by
  refine ⟨rfl, rfl, rfl, rfl, by decide, by decide⟩

/-- Witness for the C6 (amended) theorem at a concrete input. -/
theorem C6_disable_transition_clears_witness :
    (applyEnabledState { enabled := false }
        { isRuntimeEnabled := true, workspaceWatcher := some 0,
          pollTimer := some (1, 1000), externalWatchers := [("a", 2)],
          knownMtimes := [("a", 5)], nextId := 3 } : ExtState).externalWatchers
      = [] :=
  (C6_disable_transition_clears { enabled := false }
    { isRuntimeEnabled := true, workspaceWatcher := some 0,
      pollTimer := some (1, 1000), externalWatchers := [("a", 2)],
      knownMtimes := [("a", 5)], nextId := 3 } rfl rfl).2.2.2.2.1

/-! ### Claim C7 -/

/-- Claim C7: a configuration change while the runtime stays enabled
restarts only the component whose setting changed.  A glob-only change
restarts the primary watcher (fresh handle) and leaves the poll timer
(identity and interval) and the per-file watcher handles untouched; a
poll-interval-only change restarts only the poll timer at the newly clamped
interval; both enqueue a watcher-set reconciliation afterward. -/
theorem C7_selective_restart (e : ExtState) (cfg : Config) (ev : ConfigEvent)
    (hen : e.isRuntimeEnabled = true) (hc : cfg.enabled = true)
    (hroot : ev.affectsRoot = true) :
    (ev.affectsGlob = true → ev.affectsPollInterval = false →
      (onConfig ev cfg e).pollTimer = e.pollTimer ∧
      (onConfig ev cfg e).externalWatchers = e.externalWatchers ∧
      (onConfig ev cfg e).workspaceWatcher = some e.nextId ∧
      (onConfig ev cfg e).knownMtimes = e.knownMtimes ∧
      (onConfig ev cfg e).inFlight = e.inFlight ∧
      (onConfig ev cfg e).lastEventAt = e.lastEventAt ∧
      (onConfig ev cfg e).lastDirtyNotifyAt = e.lastDirtyNotifyAt ∧
      (onConfig ev cfg e).isRuntimeEnabled = true ∧
      (onConfig ev cfg e).syncQueue = e.syncQueue + 1) ∧
    (ev.affectsGlob = false → ev.affectsPollInterval = true →
      (onConfig ev cfg e).workspaceWatcher = e.workspaceWatcher ∧
      (onConfig ev cfg e).externalWatchers = e.externalWatchers ∧
      (onConfig ev cfg e).pollTimer = some (e.nextId, getPollIntervalMs cfg) ∧
      (onConfig ev cfg e).knownMtimes = e.knownMtimes ∧
      (onConfig ev cfg e).inFlight = e.inFlight ∧
      (onConfig ev cfg e).lastEventAt = e.lastEventAt ∧
      (onConfig ev cfg e).lastDirtyNotifyAt = e.lastDirtyNotifyAt ∧
      (onConfig ev cfg e).isRuntimeEnabled = true ∧
      (onConfig ev cfg e).syncQueue = e.syncQueue + 1) := by
  have hsame : cfg.enabled = e.isRuntimeEnabled := by rw [hen, hc]
  constructor
  · intro hg hp
    have : onConfig ev cfg e =
        queueSyncExternalWatchers (restartWorkspaceWatcher e) := by
      unfold onConfig applyEnabledState
      rw [if_neg (by simp [hroot]), if_pos hsame, if_neg (by simp [hen]),
        if_neg (by simp [hen]), hg, hp]
      simp
    rw [this]
    exact ⟨rfl, rfl, rfl, rfl, rfl, rfl, rfl, hen, rfl⟩
  · intro hg hp
    have : onConfig ev cfg e =
        queueSyncExternalWatchers (restartPolling cfg e) := by
      unfold onConfig applyEnabledState
      rw [if_neg (by simp [hroot]), if_pos hsame, if_neg (by simp [hen]),
        if_neg (by simp [hen]), hg, hp]
      simp
    rw [this]
    exact ⟨rfl, rfl, rfl, rfl, rfl, rfl, rfl, hen, rfl⟩

/-- Witness for the C7 theorem at a concrete input. -/
theorem C7_selective_restart_witness :
    (onConfig { affectsGlob := true } { }
        { isRuntimeEnabled := true, workspaceWatcher := some 0,
          pollTimer := some (1, 1000), externalWatchers := [("a", 2)],
          nextId := 3 }).pollTimer = some (1, 1000) :=
  ((C7_selective_restart
      { isRuntimeEnabled := true, workspaceWatcher := some 0,
        pollTimer := some (1, 1000), externalWatchers := [("a", 2)], nextId := 3 }
      { } { affectsGlob := true } rfl rfl rfl).1 rfl rfl).1

/-! ### Claim C8 -/

theorem mget_filter_none {α : Type} (m : List (Key × α)) (k : Key)
    (p : Key × α → Bool) (h : ∀ v, p (k, v) = false) :
    mget (m.filter p) k = none := by
  induction m with
  | nil => rfl
  | cons a m ih =>
    obtain ⟨x, v⟩ := a
    rw [List.filter_cons]
    by_cases hx : x = k
    · subst hx
      rw [h v]
      exact ih
    · cases hp : p (x, v)
      · exact ih
      · simp [mget, hx, ih]

theorem mhas_mem_keys {α : Type} (m : List (Key × α)) (k : Key)
    (h : mhas m k = true) : k ∈ m.map Prod.fst := by
  induction m with
  | nil => cases h
  | cons a m ih =>
    obtain ⟨x, v⟩ := a
    by_cases hx : x = k
    · simp [hx]
    · rw [mhas, mget, if_neg hx] at h
      simp [ih h]

/-- `seedKnownMtime` rewrites only the known-mtime store, and only at its
own key. -/
theorem seedKnownMtime_frame (w : World) (k : Key) :
    (seedKnownMtime w k).ext.inFlight = w.ext.inFlight ∧
    (seedKnownMtime w k).ext.lastEventAt = w.ext.lastEventAt ∧
    (seedKnownMtime w k).ext.lastDirtyNotifyAt = w.ext.lastDirtyNotifyAt ∧
    (seedKnownMtime w k).ext.externalWatchers = w.ext.externalWatchers ∧
    (seedKnownMtime w k).ext.nextId = w.ext.nextId ∧
    (seedKnownMtime w k).docs = w.docs ∧
    (seedKnownMtime w k).disk = w.disk ∧
    (∀ k', k' ≠ k →
      mget (seedKnownMtime w k).ext.knownMtimes k' = mget w.ext.knownMtimes k') := by
  unfold seedKnownMtime
  split
  · rcases statMtimeMs w k with - | m
    · exact ⟨rfl, rfl, rfl, rfl, rfl, rfl, rfl, fun k' h => rfl⟩
    · exact ⟨rfl, rfl, rfl, rfl, rfl, rfl, rfl,
        fun k' h => mget_mset_ne _ _ _ _ h⟩
  · exact ⟨rfl, rfl, rfl, rfl, rfl, rfl, rfl, fun k' h => rfl⟩

/-- `attachWatcher` rewrites only the watcher-handle store (and the fresh-id
counter), and only at its own key. -/
theorem attachWatcher_frame (a : Key → Bool) (w : World) (k : Key) :
    (attachWatcher a w k).ext.inFlight = w.ext.inFlight ∧
    (attachWatcher a w k).ext.lastEventAt = w.ext.lastEventAt ∧
    (attachWatcher a w k).ext.lastDirtyNotifyAt = w.ext.lastDirtyNotifyAt ∧
    (attachWatcher a w k).ext.knownMtimes = w.ext.knownMtimes ∧
    (attachWatcher a w k).docs = w.docs ∧
    (attachWatcher a w k).disk = w.disk ∧
    (∀ k', k' ≠ k →
      mget (attachWatcher a w k).ext.externalWatchers k'
        = mget w.ext.externalWatchers k') := by
  unfold attachWatcher
  split
  · exact ⟨rfl, rfl, rfl, rfl, rfl, rfl, fun k' h => rfl⟩
  · split
    · exact ⟨rfl, rfl, rfl, rfl, rfl, rfl, fun k' h => mget_mset_ne _ _ _ _ h⟩
    · exact ⟨rfl, rfl, rfl, rfl, rfl, rfl, fun k' h => rfl⟩

/-- The attach fold never touches the in-flight set, and it leaves every
key that is not the path of one of the folded documents untouched. -/
theorem foldAttach_frame (a : Key → Bool) (ds : List Document) (w : World)
    (k : Key) (h : ∀ d ∈ ds, d.path ≠ k) :
    (ds.foldl (syncAttachOne a) w).ext.inFlight = w.ext.inFlight ∧
    (ds.foldl (syncAttachOne a) w).ext.lastEventAt = w.ext.lastEventAt ∧
    (ds.foldl (syncAttachOne a) w).ext.lastDirtyNotifyAt
      = w.ext.lastDirtyNotifyAt ∧
    mget (ds.foldl (syncAttachOne a) w).ext.knownMtimes k
      = mget w.ext.knownMtimes k ∧
    mget (ds.foldl (syncAttachOne a) w).ext.externalWatchers k
      = mget w.ext.externalWatchers k := by
  induction ds generalizing w with
  | nil => exact ⟨rfl, rfl, rfl, rfl, rfl⟩
  | cons d ds ih =>
    have hd : d.path ≠ k := h d (by simp)
    have hds : ∀ d' ∈ ds, d'.path ≠ k := fun d' hmem => h d' (by simp [hmem])
    obtain ⟨i1, i2, i3, i4, i5⟩ := ih (syncAttachOne a w d) hds
    obtain ⟨s1, s2, s3, s4, s5, -, -, s8⟩ := seedKnownMtime_frame w d.path
    obtain ⟨a1, a2, a3, a4, -, -, a7⟩ :=
      attachWatcher_frame a (seedKnownMtime w d.path) d.path
    rw [List.foldl_cons]
    refine ⟨?_, ?_, ?_, ?_, ?_⟩
    · rw [i1]; unfold syncAttachOne; rw [a1, s1]
    · rw [i2]; unfold syncAttachOne; rw [a2, s2]
    · rw [i3]; unfold syncAttachOne; rw [a3, s3]
    · rw [i4]; unfold syncAttachOne; rw [a4]; exact s8 k (fun hc => hd hc.symm)
    · rw [i5]; unfold syncAttachOne
      rw [a7 k (fun hc => hd hc.symm), s4]

/-- Claim C8 (amended): when a document is closed, the reconciliation step
that closes its external watcher handle drops the three per-key stores
`knownMtimes`, `lastEventAt` and `lastDirtyNotifyAt` together in that same
step — but not `inFlight`, which reconciliation never touches (it is
cleared only by the owning evaluation's exit path). -/
theorem C8_reconciliation_drops_three_fields (w : World) (attachOk : Key → Bool)
    (k : Key)
    (hw : mhas w.ext.externalWatchers k = true)
    (hclosed : ∀ d ∈ w.docs, d.path ≠ k) :
    mget (syncExternalWatchers attachOk w).ext.externalWatchers k = none ∧
    mget (syncExternalWatchers attachOk w).ext.knownMtimes k = none ∧
    mget (syncExternalWatchers attachOk w).ext.lastEventAt k = none ∧
    mget (syncExternalWatchers attachOk w).ext.lastDirtyNotifyAt k = none ∧
    (syncExternalWatchers attachOk w).ext.inFlight = w.ext.inFlight := by
  unfold syncExternalWatchers
  dsimp only
  set openDocs := w.docs.filter shouldWatchDocument with hod
  set openPaths := openDocs.map (fun d => d.path) with hop
  have hkmem : k ∉ openPaths := by
    rw [hop, hod]
    simp only [List.mem_map, List.mem_filter, not_exists]
    rintro d ⟨⟨hmem, -⟩, hpath⟩
    exact hclosed d hmem hpath
  have hnotopen : openPaths.contains k = false := by
    cases hc : openPaths.contains k
    · rfl
    · exact absurd (List.mem_of_elem_eq_true hc) hkmem
  set eR := syncRemovalPass w.ext openPaths with heR
  have hkg : k ∈ (w.ext.externalWatchers.map (fun p => p.1)).filter
      (fun x => !openPaths.contains x) := by
    have hk : k ∈ w.ext.externalWatchers.map Prod.fst :=
      mhas_mem_keys _ _ hw
    rw [List.mem_filter]
    exact ⟨hk, by rw [hnotopen]; rfl⟩
  have hR : mget eR.externalWatchers k = none ∧
      mget eR.knownMtimes k = none ∧ mget eR.lastEventAt k = none ∧
      mget eR.lastDirtyNotifyAt k = none ∧ eR.inFlight = w.ext.inFlight := by
    rw [heR]
    unfold syncRemovalPass
    refine ⟨?_, ?_, ?_, ?_, rfl⟩
    · exact mget_filter_none _ _ _ (fun v => hnotopen)
    · refine mget_filter_none _ _ _ (fun v => ?_)
      simpa using hkg
    · refine mget_filter_none _ _ _ (fun v => ?_)
      simpa using hkg
    · refine mget_filter_none _ _ _ (fun v => ?_)
      simpa using hkg
  have hopenk : ∀ d ∈ openDocs, d.path ≠ k := by
    intro d hmem
    rw [hod] at hmem
    exact hclosed d (List.mem_of_mem_filter hmem)
  obtain ⟨f1, f2, f3, f4, f5⟩ :=
    foldAttach_frame attachOk openDocs { w with ext := eR } k hopenk
  obtain ⟨r1, r2, r3, r4, r5⟩ := hR
  refine ⟨?_, ?_, ?_, ?_, ?_⟩
  · rw [f5]; exact r1
  · rw [f4]; exact r2
  · rw [f2]; exact r3
  · rw [f3]; exact r4
  · rw [f1]; exact r5

/-- A world with a watched key `"a"` whose evaluation is suspended
(in-flight) while its document has been closed. -/
def w8 : World where
  ext := { isRuntimeEnabled := true, externalWatchers := [("a", 0)],
           knownMtimes := [("a", 5)], inFlight := ["a"],
           lastEventAt := [("a", 7)], lastDirtyNotifyAt := [("a", 8)] }
  docs := []
  disk := diskA

/-- Counterexample to claim C8 as stated: in the reconciliation step that
closes the closed document's watcher handle, the three map entries are
dropped but the `inFlight` flag for the same key survives the step — the
four fields are not dropped atomically together. -/
theorem C8_inflight_not_dropped_counterexample :
    mhas w8.ext.externalWatchers "a" = true ∧
    w8.docs = [] ∧
    w8.ext.inFlight.contains "a" = true ∧
    mget (syncExternalWatchers (fun _ => true) w8).ext.externalWatchers "a"
      = none ∧
    mget (syncExternalWatchers (fun _ => true) w8).ext.knownMtimes "a" = none ∧
    mget (syncExternalWatchers (fun _ => true) w8).ext.lastEventAt "a" = none ∧
    mget (syncExternalWatchers (fun _ => true) w8).ext.lastDirtyNotifyAt "a"
      = none ∧
    (syncExternalWatchers (fun _ => true) w8).ext.inFlight.contains "a"
      = true := by
  refine ⟨by decide, rfl, by decide, by decide, by decide, by decide, by decide,
    by decide⟩

/-- Witness for the C8 (amended) theorem at a concrete input. -/
theorem C8_reconciliation_drops_three_fields_witness :
    mget (syncExternalWatchers (fun _ => true) w8).ext.knownMtimes "a" = none ∧
    (syncExternalWatchers (fun _ => true) w8).ext.inFlight = w8.ext.inFlight :=
  ⟨(C8_reconciliation_drops_three_fields w8 (fun _ => true) "a" (by decide)
      (by intro d hd; cases hd)).2.1,
    (C8_reconciliation_drops_three_fields w8 (fun _ => true) "a" (by decide)
      (by intro d hd; cases hd)).2.2.2.2⟩

/-! ### Claim C10 -/

/-- A dropped signal leaves the known-mtime store and the disk untouched. -/
theorem arbiter_drop_preserves_mtimes (cfg : Config) (env : HostEnv)
    (w : World) (k : Key) (now : Int)
    (h : (maybeReloadForUri cfg env w ⟨"file", k⟩ now).1 = .debounceDrop ∨
      (maybeReloadForUri cfg env w ⟨"file", k⟩ now).1 = .inFlightDrop ∨
      (maybeReloadForUri cfg env w ⟨"file", k⟩ now).1 = .noDocDrop) :
    (maybeReloadForUri cfg env w ⟨"file", k⟩ now).2.ext.knownMtimes
      = w.ext.knownMtimes ∧
    (maybeReloadForUri cfg env w ⟨"file", k⟩ now).2.disk = w.disk := by
  by_cases hen : w.ext.isRuntimeEnabled = true
  · rcases arbiter_cases cfg env w k now hen with
      ⟨h1, heq⟩ | ⟨h1, h2, heq⟩ | ⟨h1, h2, h3, heq⟩ |
      ⟨d, h1, h2, h3, h4, h5, heq⟩ | ⟨d, h1, h2, h3, h4, h5, h6, heq⟩ |
      ⟨d, h1, h2, h3, h4, h5, h6, hph, heq⟩ |
      ⟨d, r, w', h1, h2, h3, h4, hrd, heq⟩ | ⟨d, w', h1, h2, h3, h4, hrd, heq⟩
    · simp [heq]
    · simp [heq]
    · simp [heq]
    · simp [heq]
    · simp [heq]
    · obtain ⟨o, wr, hres, ho, -⟩ :=
        arbiterResume_shape cfg env
          (recordDirtyNotify (markInFlight (recordEvent w k now) k) k now) k
      rw [heq, hres] at h
      rcases ho with ho | ho | ho <;> rw [ho] at h <;> simp at h
    · rw [heq] at h; simp at h
    · rw [heq] at h; simp at h
  · have hd : maybeReloadForUri cfg env w ⟨"file", k⟩ now = (.disabledDrop, w) := by
      simp [maybeReloadForUri, arbiterPhase1, hen]
    simp [hd]

/-- Claim C10: in a poll sweep, when a watched file's current on-disk mtime
differs from its known mtime, the known mtime is updated to the current
value before the arbiter is invoked; hence if the arbiter drops that signal
(debounce, in-flight, or closed document), the known mtime still reads the
current value afterwards and a later poll pass over the unchanged disk
emits no further signal for that same change. -/
theorem C10_poll_updates_mtime_before_signal (cfg : Config) (env : HostEnv)
    (now : Int) (w : World) (d : Document) (m prev : Int)
    (hwd : shouldWatchDocument d = true)
    (hm : statMtimeMs w d.path = some m)
    (hprev : mget w.ext.knownMtimes d.path = some prev)
    (hne : m ≠ prev)
    (hdrop :
      (maybeReloadForUri cfg env
        { w with ext := { w.ext with
            knownMtimes := mset w.ext.knownMtimes d.path m } }
        ⟨"file", d.path⟩ now).1 = .debounceDrop ∨
      (maybeReloadForUri cfg env
        { w with ext := { w.ext with
            knownMtimes := mset w.ext.knownMtimes d.path m } }
        ⟨"file", d.path⟩ now).1 = .inFlightDrop ∨
      (maybeReloadForUri cfg env
        { w with ext := { w.ext with
            knownMtimes := mset w.ext.knownMtimes d.path m } }
        ⟨"file", d.path⟩ now).1 = .noDocDrop) :
    (pollDoc cfg env now w d).2 = true ∧
    mget (pollDoc cfg env now w d).1.ext.knownMtimes d.path = some m ∧
    pollDoc cfg env now (pollDoc cfg env now w d).1 d
      = ((pollDoc cfg env now w d).1, false) := by
  have hpoll : pollDoc cfg env now w d =
      ((maybeReloadForUri cfg env
        { w with ext := { w.ext with
            knownMtimes := mset w.ext.knownMtimes d.path m } }
        ⟨"file", d.path⟩ now).2, true) := by
    unfold pollDoc
    rw [if_neg (by simp [hwd])]
    dsimp only
    rw [hm]
    dsimp only
    rw [hprev]
    dsimp only
    rw [if_pos hne]
  obtain ⟨hkm, hdisk⟩ := arbiter_drop_preserves_mtimes cfg env
    { w with ext := { w.ext with
        knownMtimes := mset w.ext.knownMtimes d.path m } }
    d.path now hdrop
  have hmget : mget (pollDoc cfg env now w d).1.ext.knownMtimes d.path
      = some m := by
    rw [hpoll]
    dsimp only
    rw [hkm]
    exact mget_mset_self _ _ _
  refine ⟨by rw [hpoll], hmget, ?_⟩
  set w1 := (pollDoc cfg env now w d).1 with hw1
  have hstat1 : statMtimeMs w1 d.path = some m := by
    unfold statMtimeMs
    rw [hw1, hpoll]
    dsimp only
    rw [hdisk]
    exact hm
  unfold pollDoc
  rw [if_neg (by simp [hwd])]
  dsimp only
  rw [hstat1]
  dsimp only
  rw [hmget]
  dsimp only
  rw [if_neg (by simp)]

/-- A world in which the poll sweep will see a fresh mtime for `"a"` but the
arbiter will drop the signal because an evaluation is already in flight. -/
def w10 : World where
  ext := { isRuntimeEnabled := true, knownMtimes := [("a", 1)],
           inFlight := ["a"] }
  docs := [docA]
  disk := diskA

/-- Witness for the C10 theorem at a concrete input. -/
theorem C10_poll_updates_mtime_before_signal_witness :
    (pollDoc { } { } 1000 w10 docA).2 = true ∧
    mget (pollDoc { } { } 1000 w10 docA).1.ext.knownMtimes "a" = some 5 :=
  ⟨(C10_poll_updates_mtime_before_signal { } { } 1000 w10 docA 5 1
      (by decide) rfl (by decide) (by decide) (.inr (.inl (by decide)))).1,
    (C10_poll_updates_mtime_before_signal { } { } 1000 w10 docA 5 1
      (by decide) rfl (by decide) (by decide) (.inr (.inl (by decide)))).2.1⟩

end AutoReload
